import Mathlib

/-!
Verification development for the repository watcher (`src/repo_watcher.rs`).

Paths are modelled by their component lists.  The per-root change handler,
the generation builder `RepoWatcher::watcher`, the constructor
`RepoWatcher::with_config` and the hot-reload closure installed by
`RepoWatcher::watch_config` are embedded from the source.  The external
collaborators `Watcher` (src/watcher.rs) and `Repo` are not part of the
provided sources; the `Watcher` state (including the debounce table its
constructor is handed the period for) is modelled from the spec, and the
`Repo` operations are abstracted as oracle functions.
-/

namespace GitSnapshot

/-- A filesystem path, modelled as its list of components. -/
abbrev FsPath := List String

/-- Models Rust `Path::strip_prefix base` on component lists: if `base` is a
prefix of `p`, the remaining components, otherwise an error (`none`). -/
def stripComponents (base p : FsPath) : Option FsPath :=
  if base.isPrefixOf p then some (p.drop base.length) else none

/-- Models Rust `Path::starts_with pre` on component lists. -/
def pathStartsWith (p pre : FsPath) : Bool :=
  pre.isPrefixOf p

/-- Modelled from the spec: the relative path of the changed path `p` with
respect to the watched root, "stripping the root prefix, not the changed
path's own prefix" (spec section 4.2, step a). -/
def specRel (root p : FsPath) : Option FsPath :=
  stripComponents root p

/-- The only panic the per-root handler could raise: the `unwrap` on the
result of `strip_prefix` at line 60 of `repo_watcher.rs`. -/
inductive HandlerPanic
  | stripUnwrap
  deriving DecidableEq, Repr

/-- Observable trace of one invocation of the per-root change handler:
the relative path it computed, whether the `.git` test dropped the event,
the argument passed to `Repo::from_path` (if reached), and whether
`Repo::snapshot` was invoked. -/
structure HandlerTrace where
  rel : FsPath
  droppedGit : Bool
  lookedUp : Option FsPath
  snapshotCalled : Bool
  deriving DecidableEq, Repr

/-- The per-root change handler closure of `RepoWatcher::watcher`
(repo_watcher.rs lines 59-70).  The closure parameter `path` (the changed
path `p`) shadows the captured repo root, so every occurrence of `path` in
the body denotes the changed path: `rel` is `p.strip_prefix(p).unwrap()`,
and `Repo::from_path` receives `p`.  `fromPathOk p` models whether
`Repo::from_path(p)` returns `Ok`; `isIgnoredRes rel` models the result of
`repo.is_ignored(rel)` (`none` for `Err`, absorbed by `unwrap_or(false)`);
the `Result` of `repo.snapshot()` is discarded by the code
(`if repo.snapshot().is_ok() {}`), so `snapshotOk` is unused. -/
def handler (fromPathOk : FsPath → Bool) (isIgnoredRes : FsPath → Option Bool)
    (snapshotOk : Bool) (p : FsPath) : Except HandlerPanic HandlerTrace :=
  match stripComponents p p with
  | none => .error .stripUnwrap
  | some rel =>
    if pathStartsWith rel [".git"] then
      .ok { rel := rel, droppedGit := true, lookedUp := none, snapshotCalled := false }
    else if fromPathOk p then
      if (isIgnoredRes rel).getD false then
        .ok { rel := rel, droppedGit := false, lookedUp := some p, snapshotCalled := false }
      else
        .ok { rel := rel, droppedGit := false, lookedUp := some p, snapshotCalled := true }
    else
      .ok { rel := rel, droppedGit := false, lookedUp := some p, snapshotCalled := false }

deriving instance DecidableEq for Except

theorem isPrefixOf_self (l : List String) : l.isPrefixOf l = true := by
  induction l with
  | nil => rfl
  | cons a t ih => simp [List.isPrefixOf, ih]

theorem stripComponents_self (p : FsPath) : stripComponents p p = some [] := by
  simp [stripComponents, isPrefixOf_self]

theorem handler_eq (f : FsPath → Bool) (g : FsPath → Option Bool) (s : Bool) (p : FsPath) :
    handler f g s p =
      .ok { rel := [], droppedGit := false, lookedUp := some p,
            snapshotCalled := f p && !((g []).getD false) } := by
  unfold handler
  rw [stripComponents_self]
  cases hf : f p <;> cases hg : (g []).getD false <;>
    simp [pathStartsWith, List.isPrefixOf, hf, hg]

/-- Association-list lookup for the debounce table. -/
def lookupEntry (key : FsPath) : List (FsPath × Nat) → Option Nat
  | [] => none
  | (k, v) :: rest => if k = key then some v else lookupEntry key rest

/-- Association-list update (insert or overwrite) for the debounce table. -/
def setEntry (key : FsPath) (v : Nat) : List (FsPath × Nat) → List (FsPath × Nat)
  | [] => [(key, v)]
  | (k, w) :: rest => if k = key then (key, v) :: rest else (k, w) :: setEntry key v rest

/-- Modelled from the spec: the `DebounceTracker` table mapping a watched-root
identity to the timestamp of its last accepted trigger (spec sections 2 and
4.1).  The tracker code lives in `src/watcher.rs`, which is not among the
provided sources. -/
structure DebounceTracker where
  entries : List (FsPath × Nat)
  deriving DecidableEq, Repr

/-- Modelled from the spec: `should_suppress(key, now)` of spec section 4.1 —
if a prior timestamp exists for `key` and `now − prior < debounce_period`,
suppress and leave the stored timestamp unchanged; otherwise allow and set
the stored timestamp to `now`.  Returns the decision and the updated table. -/
def should_suppress (period : Nat) (tr : DebounceTracker) (key : FsPath) (now : Nat) :
    Bool × DebounceTracker :=
  match lookupEntry key tr.entries with
  | some prior =>
    if now - prior < period then (true, tr)
    else (false, ⟨setEntry key now tr.entries⟩)
  | none => (false, ⟨setEntry key now tr.entries⟩)

/-- `WatchMode` of `repo_watcher.rs` via `crate::watcher`. -/
inductive WatchMode
  | event
  | poll
  deriving DecidableEq, Repr

/-- `RepoConfig` of `repo_watcher.rs` (lines 23-26). -/
structure RepoConfig where
  path : FsPath
  deriving DecidableEq, Repr

/-- `WatchConfig` of `repo_watcher.rs` (lines 16-21); the duration is a `Nat`
number of time units. -/
structure WatchConfig where
  repos : List RepoConfig
  mode : WatchMode
  debounce_period : Nat
  deriving DecidableEq, Repr

/-- Construction-time errors surfaced by `RepoWatcher` (the crate's `Error`):
a repo path failing to canonicalize, or an unreadable/unparseable config. -/
inductive BuildError
  | pathError (p : FsPath)
  | configError
  deriving DecidableEq, Repr

/-- Modelled from the spec: the state of the notification engine `Watcher`
(`src/watcher.rs`, not among the provided sources).  Per the spec interface
(section 6) `Watcher::new(mode, period)` constructs it and `watch_path`
registers a root; the debounce table lives behind the period handed to
`Watcher::new` (the facade in `repo_watcher.rs` holds no debounce state).
Handlers are abstracted away; only the registered paths are recorded. -/
structure Watcher where
  mode : WatchMode
  period : Nat
  watched : List FsPath
  tracker : DebounceTracker
  deriving DecidableEq, Repr

/-- Modelled from the spec: `Watcher::new(mode, period)` — a fresh engine with
no registrations and an empty debounce table. -/
def Watcher.new (mode : WatchMode) (period : Nat) : Watcher :=
  ⟨mode, period, [], ⟨[]⟩⟩

/-- Modelled from the spec: `Watcher::watch_path(root, handler)` — registers a
path with the engine (registration itself modelled as infallible; the
engine's own refusal is a collaborator failure outside this model). -/
def Watcher.watch_path (w : Watcher) (p : FsPath) : Watcher :=
  { w with watched := w.watched ++ [p] }

/-- The registration loop of `RepoWatcher::watcher` (repo_watcher.rs lines
58-72): for each `RepoConfig`, canonicalize the path — `canon` models
`std::fs::canonicalize`, `none` being an error that the `?` operator
propagates, aborting the whole build — and register the handler on it. -/
def registerRepos (canon : FsPath → Option FsPath) :
    List RepoConfig → Watcher → Except BuildError Watcher
  | [], w => .ok w
  | rc :: rest, w =>
    match canon rc.path with
    | none => .error (.pathError rc.path)
    | some cp => registerRepos canon rest (w.watch_path cp)

/-- `RepoWatcher::watcher(config)` (repo_watcher.rs lines 55-74): create a
fresh `Watcher` with the config's mode and debounce period, then register
every configured repo root. -/
def RepoWatcher.watcher (canon : FsPath → Option FsPath) (config : WatchConfig) :
    Except BuildError Watcher :=
  registerRepos canon config.repos (Watcher.new config.mode config.debounce_period)

/-- The hot-reload closure installed by `RepoWatcher::watch_config`
(repo_watcher.rs lines 83-94): re-open and re-parse the config file
(`parsed`, `none` on read/parse failure — the `if let Ok(config)` guard),
build a new generation (`if let Ok(w)` guard), and only on success swap it
into the shared slot and re-arm the reload handler on the new watcher.  On
either failure the current watcher `st` is left untouched. -/
def reloadStep (canon : FsPath → Option FsPath) (parsed : Option WatchConfig)
    (config_path : FsPath) (st : Watcher) : Watcher :=
  match parsed with
  | none => st
  | some config =>
    match RepoWatcher.watcher canon config with
    | .error _ => st
    | .ok w => w.watch_path config_path

/-- Iterated hot reloads: fold `reloadStep` over a list of parse outcomes. -/
def runReloads (canon : FsPath → Option FsPath) (config_path : FsPath) :
    List (Option WatchConfig) → Watcher → Watcher
  | [], st => st
  | s :: rest, st => runReloads canon config_path rest (reloadStep canon s config_path st)

/-- `RepoWatcher::with_config(config_path)` (repo_watcher.rs lines 42-53):
read and parse the config file (`parsed`, `none` on read/parse failure,
propagated by `?`), build the initial generation with
`RepoWatcher::watcher` (errors propagated by `?`), then arm the reload
handler on the config file's path via `watch_config`. -/
def with_config (canon : FsPath → Option FsPath) (parsed : Option WatchConfig)
    (config_path : FsPath) : Except BuildError Watcher :=
  match parsed with
  | none => .error .configError
  | some config =>
    match RepoWatcher.watcher canon config with
    | .error e => .error e
    | .ok w => .ok (w.watch_path config_path)

/-- One change event for `root` at changed path `p` and time `now`, as
delivered through the engine: the debounce gate (spec section 4.1, modelled
— it lives in `src/watcher.rs`) runs first, then the per-root handler from
`repo_watcher.rs`.  Returns whether a snapshot was invoked and the updated
debounce table. -/
def deliverEvent (period : Nat) (root : FsPath) (f : FsPath → Bool)
    (g : FsPath → Option Bool) (s : Bool) (p : FsPath)
    (tr : DebounceTracker) (now : Nat) : Bool × DebounceTracker :=
  let sup := should_suppress period tr root now
  if sup.1 then (false, sup.2)
  else
    match handler f g s p with
    | .error _ => (false, sup.2)
    | .ok t => (t.snapshotCalled, sup.2)

/-- Number of snapshots produced by a sequence of change events at the given
times, all for the same root and changed path. -/
def countSnapshots (period : Nat) (root : FsPath) (f : FsPath → Bool)
    (g : FsPath → Option Bool) (s : Bool) (p : FsPath)
    (tr : DebounceTracker) : List Nat → Nat
  | [] => 0
  | t :: rest =>
    let r := deliverEvent period root f g s p tr t
    (if r.1 then 1 else 0) + countSnapshots period root f g s p r.2 rest

/-- Whether a build result is a watcher (Rust `Result::is_ok`). -/
def isOkW : Except BuildError Watcher → Bool
  | .ok _ => true
  | .error _ => false

/-- A one-repo configuration used as concrete input in several witnesses. -/
def config1 : WatchConfig :=
  { repos := [{ path := ["r"] }], mode := .event, debounce_period := 10 }

/-- The watcher `RepoWatcher::watcher` builds from `config1` when every path
canonicalizes to itself. -/
def w1 : Watcher :=
  { mode := .event, period := 10, watched := [["r"]], tracker := ⟨[]⟩ }

/-- A running watcher for `config1` that has the config path registered and
an accepted trigger for root `r` recorded at time 0. -/
def st0 : Watcher :=
  { mode := .event, period := 10, watched := [["r"], ["c"]], tracker := ⟨[(["r"], 0)]⟩ }

theorem lookup_setEntry (key : FsPath) (v : Nat) (l : List (FsPath × Nat)) :
    lookupEntry key (setEntry key v l) = some v := by
  induction l with
  | nil => simp [setEntry, lookupEntry]
  | cons kv rest ih =>
    obtain ⟨k, w⟩ := kv
    by_cases hk : k = key
    · simp [setEntry, lookupEntry, hk]
    · simp [setEntry, lookupEntry, hk, ih]

theorem deliverEvent_empty (period : Nat) (root p : FsPath) (t : Nat) :
    deliverEvent period root (fun _ => true) (fun _ => some false) true p ⟨[]⟩ t =
      (true, ⟨[(root, t)]⟩) := by
  simp [deliverEvent, should_suppress, lookupEntry, setEntry, handler_eq]

theorem deliverEvent_prior (period : Nat) (root p : FsPath) (t1 t2 : Nat) :
    deliverEvent period root (fun _ => true) (fun _ => some false) true p ⟨[(root, t1)]⟩ t2 =
      if t2 - t1 < period then (false, ⟨[(root, t1)]⟩) else (true, ⟨[(root, t2)]⟩) := by
  by_cases h : t2 - t1 < period <;>
    simp [deliverEvent, should_suppress, lookupEntry, setEntry, handler_eq, h]

theorem registerRepos_error (canon : FsPath → Option FsPath) :
    ∀ (l : List RepoConfig) (w : Watcher), (∃ rc ∈ l, canon rc.path = none) →
      ∃ e, registerRepos canon l w = .error e := by
  intro l
  induction l with
  | nil => intro w h; simp at h
  | cons rc rest ih =>
    intro w h
    cases hc : canon rc.path with
    | none => exact ⟨.pathError rc.path, by simp [registerRepos, hc]⟩
    | some cp =>
      obtain ⟨rc0, hmem, hnone⟩ := h
      rcases List.mem_cons.mp hmem with hEq | hmem2
      · subst hEq; rw [hc] at hnone; exact Option.noConfusion hnone
      · obtain ⟨e, he⟩ := ih (w.watch_path cp) ⟨rc0, hmem2, hnone⟩
        exact ⟨e, by simp [registerRepos, hc, he]⟩

/-- C10: the handler's relative-path computation strips the changed path's
own prefix from itself, which always succeeds (the `unwrap` never panics)
and always yields the empty path; the `.git` test is therefore false for
every event, and every event reaches the repository-lookup stage with the
repository resolved from the changed file's path `p`, not from the root. -/
theorem handler_strips_own_path_and_degenerates (f : FsPath → Bool)
    (g : FsPath → Option Bool) (s : Bool) (p : FsPath) :
    stripComponents p p = some [] ∧
    handler f g s p =
      .ok { rel := [], droppedGit := false, lookedUp := some p,
            snapshotCalled := f p && !((g []).getD false) } :=
  ⟨stripComponents_self p, handler_eq f g s p⟩

/-- C9: the per-root handler returns normally for every event and every
outcome of repository resolution, the ignore check and the snapshot
operation — it never reaches its panic branch, and its behaviour does not
depend on whether the snapshot succeeded. -/
theorem handler_never_unwinds (f : FsPath → Bool) (g : FsPath → Option Bool)
    (s : Bool) (p : FsPath) :
    (∃ t, handler f g s p = .ok t) ∧ handler f g true p = handler f g false p :=
  ⟨⟨_, handler_eq f g s p⟩, (handler_eq f g true p).trans (handler_eq f g false p).symm⟩

/-- C1 is violated by the code: for root `r` and changed path `r/a.txt` the
handler computes `rel = []` (it strips the changed path's own prefix from
itself), whereas the relative path with respect to the watched root, which
the claim states it computes, is `[a.txt]`. -/
theorem handler_rel_not_root_relative :
    handler (fun _ => true) (fun _ => some false) true ["r", "a.txt"] =
      .ok { rel := [], droppedGit := false, lookedUp := some ["r", "a.txt"],
            snapshotCalled := true } ∧
    specRel ["r"] ["r", "a.txt"] = some ["a.txt"] := by decide

/-- C2 is violated by the code: for a change at `r/.git/x` (relative path
`[.git, x]` with respect to the root `r`) the handler computes `rel = []`,
the `.git` test is false, and the snapshot operation is invoked whenever
the repository resolves and does not ignore the empty path. -/
theorem handler_git_event_snapshots :
    handler (fun _ => true) (fun _ => some false) true ["r", ".git", "x"] =
      .ok { rel := [], droppedGit := false, lookedUp := some ["r", ".git", "x"],
            snapshotCalled := true } ∧
    specRel ["r"] ["r", ".git", "x"] = some [".git", "x"] := by decide

/-- C3: two events for the same root separated by less than the debounce
period yield one snapshot and separated by more yield two; suppression
leaves the stored tracker unchanged, and an accepted event stores `now`. -/
theorem debounce_two_events (period t1 t2 : Nat) (root p : FsPath) :
    (t2 - t1 < period →
      countSnapshots period root (fun _ => true) (fun _ => some false) true p ⟨[]⟩ [t1, t2] = 1) ∧
    (period < t2 - t1 →
      countSnapshots period root (fun _ => true) (fun _ => some false) true p ⟨[]⟩ [t1, t2] = 2) ∧
    (∀ tr key now, (should_suppress period tr key now).1 = true →
      (should_suppress period tr key now).2 = tr) ∧
    (∀ tr key now, (should_suppress period tr key now).1 = false →
      lookupEntry key (should_suppress period tr key now).2.entries = some now) := by
  refine ⟨?_, ?_, ?_, ?_⟩
  · intro h
    simp [countSnapshots, deliverEvent_empty, deliverEvent_prior, h]
  · intro h
    have h2 : ¬ (t2 - t1 < period) := Nat.not_lt.mpr (Nat.le_of_lt h)
    simp [countSnapshots, deliverEvent_empty, deliverEvent_prior, h2]
  · intro tr key now
    unfold should_suppress
    cases lookupEntry key tr.entries with
    | none => intro hsup; simp at hsup
    | some prior =>
      by_cases hlt : now - prior < period
      · intro _; simp [hlt]
      · intro hsup; simp [hlt] at hsup
  · intro tr key now
    unfold should_suppress
    cases lookupEntry key tr.entries with
    | none => intro _; simp [lookup_setEntry]
    | some prior =>
      by_cases hlt : now - prior < period
      · intro hsup; simp [hlt] at hsup
      · intro _; simp [hlt, lookup_setEntry]

/-- Witness for C3 at concrete inputs: period 10, events at 0 and 4 give one
snapshot, events at 0 and 15 give two; suppression at time 4 keeps the
stored entry 0, and an accepted event at time 7 stores 7. -/
theorem debounce_two_events_witness :
    countSnapshots 10 ["r"] (fun _ => true) (fun _ => some false) true ["r", "f"] ⟨[]⟩ [0, 4] = 1 ∧
    countSnapshots 10 ["r"] (fun _ => true) (fun _ => some false) true ["r", "f"] ⟨[]⟩ [0, 15] = 2 ∧
    (should_suppress 10 ⟨[(["r"], 0)]⟩ ["r"] 4).2 = ⟨[(["r"], 0)]⟩ ∧
    lookupEntry ["r"] (should_suppress 10 ⟨[]⟩ ["r"] 7).2.entries = some 7 :=
  ⟨(debounce_two_events 10 0 4 ["r"] ["r", "f"]).1 (by decide),
   (debounce_two_events 10 0 15 ["r"] ["r", "f"]).2.1 (by decide),
   (debounce_two_events 10 0 4 ["r"] ["r", "f"]).2.2.1 ⟨[(["r"], 0)]⟩ ["r"] 4 (by decide),
   (debounce_two_events 10 0 7 ["r"] ["r", "f"]).2.2.2 ⟨[]⟩ ["r"] 7 (by decide)⟩

/-- C4: on a config-file change, a read/parse failure (`parsed = none`) or a
generation-build failure leaves the current watcher — registrations,
debounce table and all — completely unchanged. -/
theorem reload_failure_retains_generation (canon : FsPath → Option FsPath)
    (config : WatchConfig) (cp : FsPath) (st : Watcher) :
    reloadStep canon none cp st = st ∧
    ((∃ e, RepoWatcher.watcher canon config = .error e) →
      reloadStep canon (some config) cp st = st) := by
  refine ⟨rfl, ?_⟩
  rintro ⟨e, he⟩
  simp [reloadStep, he]

/-- Witness for C4: a reload whose single repo path fails to canonicalize
leaves the running watcher `st0` unchanged. -/
theorem reload_failure_retains_generation_witness :
    reloadStep (fun _ => none) (some config1) ["c"] st0 = st0 :=
  (reload_failure_retains_generation (fun _ => none) config1 ["c"] st0).2
    ⟨.pathError ["r"], by decide⟩

/-- C5 is violated by the code: with an accepted trigger for root `r`
recorded at time 0 and period 10, an event at time 5 is suppressed before a
reload, but after a successful reload — which builds a fresh `Watcher` with
an empty debounce table and swaps it in — the same event is admitted. -/
theorem reload_resets_debounce :
    (should_suppress 10 st0.tracker ["r"] 5).1 = true ∧
    (should_suppress 10 (reloadStep (fun q => some q) (some config1) ["c"] st0).tracker
      ["r"] 5).1 = false := by decide

/-- C6: building a generation is all-or-nothing — if any configured repo
path fails to canonicalize, `RepoWatcher::watcher` returns an error and no
watcher value is produced. -/
theorem build_all_or_nothing (canon : FsPath → Option FsPath) (config : WatchConfig)
    (h : ∃ rc ∈ config.repos, canon rc.path = none) :
    ∃ e, RepoWatcher.watcher canon config = .error e :=
  registerRepos_error canon config.repos _ h

/-- Witness for C6: with no path canonicalizing, building from `config1`
returns an error. -/
theorem build_all_or_nothing_witness :
    ∃ e, RepoWatcher.watcher (fun _ => none) config1 = .error e :=
  build_all_or_nothing (fun _ => none) config1 ⟨{ path := ["r"] }, by decide, rfl⟩

/-- C7: every successful reload re-arms the reload handler on the new
watcher, so after any finite, nonempty sequence of successful reloads the
current watcher still has the config file's path registered. -/
theorem reload_rearms_config_watch (canon : FsPath → Option FsPath) (cp : FsPath) :
    ∀ (steps : List WatchConfig) (st : Watcher), steps ≠ [] →
      (∀ c ∈ steps, isOkW (RepoWatcher.watcher canon c) = true) →
      cp ∈ (runReloads canon cp (steps.map some) st).watched := by
  intro steps
  induction steps with
  | nil => intro st h _; exact absurd rfl h
  | cons c rest ih =>
    intro st _ hok
    have hc := hok c (List.mem_cons_self c rest)
    obtain ⟨w, hw⟩ : ∃ w, RepoWatcher.watcher canon c = .ok w := by
      cases hx : RepoWatcher.watcher canon c with
      | ok w => exact ⟨w, rfl⟩
      | error e => rw [hx] at hc; exact absurd hc (by simp [isOkW])
    cases rest with
    | nil => simp [runReloads, reloadStep, hw, Watcher.watch_path]
    | cons c2 rest2 =>
      have hstep : runReloads canon cp ((c :: c2 :: rest2).map some) st =
          runReloads canon cp ((c2 :: rest2).map some) (reloadStep canon (some c) cp st) := rfl
      rw [hstep]
      exact ih _ (by simp) (fun c3 hc3 => hok c3 (List.mem_cons_of_mem c hc3))

/-- Witness for C7: after two successful reloads from `st0`, the config path
is still watched. -/
theorem reload_rearms_config_watch_witness :
    ["c"] ∈ (runReloads (fun q => some q) ["c"] ([config1, config1].map some) st0).watched :=
  reload_rearms_config_watch (fun q => some q) ["c"] [config1, config1] st0
    (by decide) (by decide)

/-- C8: `with_config` fails with a config error whenever reading or parsing
the file fails, and when read, parse and build all succeed it returns the
built generation with the reload handler armed on the config file's path. -/
theorem with_config_spec (canon : FsPath → Option FsPath) (parsed : Option WatchConfig)
    (cp : FsPath) :
    (parsed = none → with_config canon parsed cp = .error .configError) ∧
    (∀ config w, parsed = some config → RepoWatcher.watcher canon config = .ok w →
      with_config canon parsed cp = .ok (w.watch_path cp) ∧
      cp ∈ (w.watch_path cp).watched) := by
  constructor
  · rintro rfl; rfl
  · rintro config w rfl hw
    refine ⟨by simp [with_config, hw], by simp [Watcher.watch_path]⟩

/-- Witness for C8: an unreadable config yields a config error, and a good
one-repo config yields the watcher `w1` with the config path armed. -/
theorem with_config_spec_witness :
    with_config (fun _ => none) none ["c"] = .error .configError ∧
    with_config (fun q => some q) (some config1) ["c"] = .ok (w1.watch_path ["c"]) :=
  ⟨(with_config_spec (fun _ => none) none ["c"]).1 rfl,
   ((with_config_spec (fun q => some q) (some config1) ["c"]).2 config1 w1 rfl (by decide)).1⟩

end GitSnapshot
